import Mathlib

/-!
Shallow embedding of the Execution Helper and hint handlers of the snos
OS runner (`src/execution/helper.rs`, `src/hints/mod.rs`).

Rust iterators (`IntoIter<_>`) are modelled as Lean lists holding the not yet
consumed elements; `assert!` failures, `unwrap` on `None` and other fatal
aborts are modelled by returning `none` from the transition function; the
`Rc<RefCell<_>>` wrapper around the helper state is modelled away by passing
the state explicitly.
-/

/-- The Stark field prime, 2^251 + 17 * 2^192 + 1. -/
def PRIME : Nat := 3618502788666131213697322783095070105623107215331596699973092056135872020481

/-- Models `Felt252::from_bytes_be_slice` applied to the 32-byte big-endian
encoding of a `StarkFelt` value: re-reading the bytes of a field-sized value
yields the value reduced modulo the field prime. -/
def felt_of_stark_bytes (x : Nat) : Nat := x % PRIME

/-- Models `cairo_vm::types::relocatable::Relocatable`. -/
structure Relocatable where
  segment_index : Int
  offset : Nat
deriving DecidableEq, Repr

/-- Models `blockifier::block_context::BlockContext` with the fields the spec
names (block number, timestamp, sequencer address, chain id, fee-token
address); only `block_number` is inspected by the code under `src/`. -/
structure BlockContext where
  block_number : Nat
  block_timestamp : Nat
  sequencer_address : Nat
  chain_id : Nat
  fee_token_address : Nat
deriving DecidableEq, Repr

/-- Models `starknet_api::deprecated_contract_class::EntryPointType`. -/
inductive EntryPointType where
  | External
  | L1Handler
  | Constructor
deriving DecidableEq, Repr

/-- Models the `call` descriptor inside a `CallInfo`
(`blockifier::execution::entry_point::CallEntryPoint`): the fields read by
the code under `src/` are the entry-point type and the caller address. -/
structure CallEntryPoint where
  entry_point_type : EntryPointType
  caller_address : Nat
deriving DecidableEq, Repr

/-- Models `blockifier::execution::call_info::CallExecution`: failed flag,
return data and gas consumed. -/
structure CallExecution where
  failed : Bool
  retdata : List Nat
  gas_consumed : Nat
deriving DecidableEq, Repr

/-- Models `blockifier::execution::call_info::CallInfo`: a call descriptor,
its execution result, the ordered inner calls and the storage read values. -/
inductive CallInfo where
  | mk (call : CallEntryPoint) (execution : CallExecution)
       (inner_calls : List CallInfo) (storage_read_values : List Nat)

def CallInfo.call : CallInfo → CallEntryPoint
  | .mk c _ _ _ => c

def CallInfo.execution : CallInfo → CallExecution
  | .mk _ e _ _ => e

def CallInfo.inner_calls : CallInfo → List CallInfo
  | .mk _ _ ics _ => ics

def CallInfo.storage_read_values : CallInfo → List Nat
  | .mk _ _ _ srv => srv

/-- Models `blockifier::execution::entry_point_execution::CallResult`. -/
structure CallResult where
  failed : Bool
  retdata : List Nat
  gas_consumed : Nat
deriving DecidableEq, Repr

/-- Models `blockifier::transaction::objects::TransactionExecutionInfo`: the
three optional call trees (validate, execute, fee transfer). -/
structure TransactionExecutionInfo where
  validate_call_info : Option CallInfo
  execute_call_info : Option CallInfo
  fee_transfer_call_info : Option CallInfo

/-- Models blockifier's `TransactionExecutionInfo::non_optional_call_infos`,
the opaque collaborator the spec fixes: the present call trees among
validate, execute and fee transfer, in that fixed order. -/
def TransactionExecutionInfo.non_optional_call_infos
    (t : TransactionExecutionInfo) : List CallInfo :=
  [t.validate_call_info, t.execute_call_info, t.fee_transfer_call_info].filterMap id

mutual
/-- Models `GenCallTopology::gen_call_topology` in `src/execution/helper.rs`:
the node itself followed by the flattening of its inner calls. -/
def CallInfo.gen_call_topology : CallInfo → List CallInfo
  | .mk c e ics srv => .mk c e ics srv :: gen_call_topology_list ics

/-- The `for call in self.inner_calls` loop of `gen_call_topology`, extending
the result with each inner call's own topology in order. -/
def gen_call_topology_list : List CallInfo → List CallInfo
  | [] => []
  | c :: cs => c.gen_call_topology ++ gen_call_topology_list cs
end

/-- Models `GenCallIter::gen_call_iterator` in `src/execution/helper.rs`: the
loop `for call_info in self.non_optional_call_infos()` extending an
accumulator with each tree's topology. -/
def TransactionExecutionInfo.gen_call_iterator
    (t : TransactionExecutionInfo) : List CallInfo :=
  t.non_optional_call_infos.foldl (fun acc ci => acc ++ ci.gen_call_topology) []

/-- Models the constant `STORED_BLOCK_HASH_BUFFER` from `crate::config`.
Modelled from the spec: `crate::config` is not under `src/`; the spec fixes
only the constant's role (`prev_block_context` present iff
`block_number ≥ STORED_BLOCK_HASH_BUFFER`), and the upstream value is 10. -/
def STORED_BLOCK_HASH_BUFFER : Nat := 10

/-- Models `u64::checked_sub`: `a - b` when it does not underflow. -/
def checked_sub (a b : Nat) : Option Nat :=
  if b ≤ a then some (a - b) else none

/-- Models the `ExecutionHelper` state of `src/execution/helper.rs`, with
each `IntoIter<_>` as the list of its remaining elements. -/
structure ExecutionHelper where
  prev_block_context : Option BlockContext
  tx_execution_info_iter : List TransactionExecutionInfo
  tx_execution_info : Option TransactionExecutionInfo
  tx_info_ptr : Option Relocatable
  call_execution_info_ptr : Option Relocatable
  call_iter : List CallInfo
  call_info : Option CallInfo
  result_iter : List CallResult
  deployed_contracts_iter : List Nat
  execute_code_read_iter : List Nat

/-- Models `ExecutionHelperManager::new`: `prev_block_context` is
`checked_sub(block_number, STORED_BLOCK_HASH_BUFFER).map(|_| clone)` and all
iterators start empty. -/
def ExecutionHelperManager.new (tx_execution_infos : List TransactionExecutionInfo)
    (block_context : BlockContext) : ExecutionHelper :=
  { prev_block_context :=
      (checked_sub block_context.block_number STORED_BLOCK_HASH_BUFFER).map
        (fun _ => block_context)
    tx_execution_info_iter := tx_execution_infos
    tx_execution_info := none
    tx_info_ptr := none
    call_execution_info_ptr := none
    call_iter := []
    call_info := none
    result_iter := []
    deployed_contracts_iter := []
    execute_code_read_iter := [] }

/-- Models `assert_iterators_exhausted` in `src/execution/helper.rs`: the
three per-call iterators have no next element. -/
def iterators_exhausted (eh : ExecutionHelper) : Prop :=
  eh.deployed_contracts_iter = [] ∧ eh.result_iter = [] ∧ eh.execute_code_read_iter = []

instance (eh : ExecutionHelper) : Decidable (iterators_exhausted eh) :=
  inferInstanceAs (Decidable (_ ∧ _ ∧ _))

/-- Models `ExecutionHelperManager::start_tx`. Failure (`none`) covers the
two `assert!`s and the `unwrap` of the popped transaction. -/
def ExecutionHelper.start_tx (eh : ExecutionHelper) (tx_info_ptr : Option Relocatable) :
    Option ExecutionHelper :=
  if eh.tx_info_ptr.isSome then none
  else if eh.tx_execution_info.isSome then none
  else match eh.tx_execution_info_iter with
    | [] => none
    | t :: rest =>
        some { eh with
          tx_info_ptr := tx_info_ptr
          tx_execution_info := some t
          tx_execution_info_iter := rest
          call_iter := t.gen_call_iterator }

/-- Models `ExecutionHelperManager::end_tx`: asserts the call iterator is
drained, clears `tx_info_ptr`, asserts a transaction is open, clears it. -/
def ExecutionHelper.end_tx (eh : ExecutionHelper) : Option ExecutionHelper :=
  match eh.call_iter with
  | _ :: _ => none
  | [] =>
      if eh.tx_execution_info.isNone then none
      else some { eh with tx_info_ptr := none, tx_execution_info := none }

/-- Models `ExecutionHelperManager::skip_tx`: `start_tx(None)` then
`end_tx()`. -/
def ExecutionHelper.skip_tx (eh : ExecutionHelper) : Option ExecutionHelper :=
  (eh.start_tx none).bind ExecutionHelper.end_tx

/-- Models `ExecutionHelperManager::enter_call`: asserts no call pointer is
set and the per-call iterators are exhausted, asserts no call is open, pops
the next `CallInfo` and rebuilds the three derived iterators from it. -/
def ExecutionHelper.enter_call (eh : ExecutionHelper)
    (execution_info_ptr : Option Relocatable) : Option ExecutionHelper :=
  if eh.call_execution_info_ptr.isSome then none
  else if ¬ iterators_exhausted eh then none
  else if eh.call_info.isSome then none
  else match eh.call_iter with
    | [] => none
    | ci :: rest =>
        some { eh with
          call_execution_info_ptr := execution_info_ptr
          call_iter := rest
          deployed_contracts_iter :=
            ci.inner_calls.filterMap (fun c =>
              if c.call.entry_point_type = .Constructor then
                some (felt_of_stark_bytes c.call.caller_address)
              else none)
          result_iter :=
            ci.inner_calls.map (fun c =>
              { failed := c.execution.failed
                retdata := c.execution.retdata
                gas_consumed := c.execution.gas_consumed })
          execute_code_read_iter :=
            ci.storage_read_values.map felt_of_stark_bytes
          call_info := some ci }

/-- Models `ExecutionHelperManager::exit_call`: clears the call pointer,
asserts the per-call iterators are exhausted and a call is open, clears the
open call. The pointer is cleared before the asserts in the source; on a
failed assert the run aborts, so the intermediate write is unobservable. -/
def ExecutionHelper.exit_call (eh : ExecutionHelper) : Option ExecutionHelper :=
  let eh := { eh with call_execution_info_ptr := none }
  if ¬ iterators_exhausted eh then none
  else if eh.call_info.isNone then none
  else some { eh with call_info := none }

/-- Models `ExecutionHelperManager::skip_call`: `enter_call(None)` then
`exit_call()`. -/
def ExecutionHelper.skip_call (eh : ExecutionHelper) : Option ExecutionHelper :=
  (eh.enter_call none).bind ExecutionHelper.exit_call

/-- Modelled from the spec: `crate::io::InternalTransaction` is not under
`src/`; the hints under `src/hints/mod.rs` read from it the hash value, the
type name, the optional salt, contract hash, constructor calldata and
version, so those are the fields the model carries. -/
structure InternalTransaction where
  hash_value : Nat
  type : String
  contract_address_salt : Option Nat
  contract_hash : Option Nat
  constructor_calldata : Option (List Nat)
  version : Option Nat
deriving DecidableEq, Repr

/-- Models `Felt252::from_bytes_be` on a big-endian byte slice: the bytes
read as a big-endian integer, reduced modulo the field prime. -/
def felt_from_bytes_be (bytes : List Nat) : Nat :=
  (bytes.foldl (fun acc b => acc * 256 + b) 0) % PRIME

/-- The bytes of an ASCII string (`str::as_bytes`): for ASCII content the
UTF-8 bytes are exactly the code points. -/
def ascii_bytes (s : String) : List Nat := s.data.map Char.toNat

/-- The field element `load_next_tx` writes to `ids.tx_type`:
`Felt252::from_bytes_be(tx.r#type.as_bytes())`. -/
def tx_type_felt (s : String) : Nat := felt_from_bytes_be (ascii_bytes s)

/-- Fuel-driven minimal big-endian byte expansion of a natural number; the
fuel only bounds the recursion depth. -/
def bytes_of_nat_be_aux : Nat → Nat → List Nat
  | 0, _ => []
  | _ + 1, 0 => []
  | fuel + 1, n + 1 => bytes_of_nat_be_aux fuel ((n + 1) / 256) ++ [(n + 1) % 256]

/-- Minimal big-endian byte representation of a natural number (no leading
zero bytes; 0 maps to the empty byte string). -/
def bytes_of_nat_be (n : Nat) : List Nat := bytes_of_nat_be_aux n n

/-- Modelled from the spec: the decoding direction of the round-trip
("decoding that field element back to bytes yields the original type name")
is not in `src/`; it is the minimal big-endian byte expansion of the field
element, read back as an ASCII string. -/
def decode_tx_type (n : Nat) : String := String.mk ((bytes_of_nat_be n).map Char.ofNat)

/-- Modelled from the spec: the transaction type names carried by
`InternalTransaction.type` (the Starknet transaction kinds named by the
spec's transaction-loop and deploy handlers). -/
def tx_type_names : List String :=
  ["INVOKE_FUNCTION", "DECLARE", "DEPLOY", "DEPLOY_ACCOUNT", "L1_HANDLER"]

/-- The scope and operand state touched by `load_next_tx`: the
`transactions` iterator, the `tx` scope variable and the `ids.tx_type`
operand cell. -/
structure LoadNextTxScope where
  transactions : List InternalTransaction
  tx : Option InternalTransaction
  ids_tx_type : Option Nat
deriving DecidableEq, Repr

/-- Models `load_next_tx` in `src/hints/mod.rs`: pop the next transaction
(`unwrap`, fatal on an empty iterator), store the advanced iterator and the
transaction back into scope, and write the big-endian ASCII encoding of the
type name to `ids.tx_type`. -/
def load_next_tx (s : LoadNextTxScope) : Option LoadNextTxScope :=
  match s.transactions with
  | [] => none
  | t :: rest =>
      some { transactions := rest
             tx := some t
             ids_tx_type := some (tx_type_felt t.type) }

/-- The operand view read by `assert_transaction_hash`: the
`ids.transaction_hash` cell, `none` when the identifier cannot be
resolved. -/
structure VmIds where
  transaction_hash : Option Nat
deriving DecidableEq, Repr

/-- The message of the `assert_eq!` in `assert_transaction_hash`, naming the
computed (operand) and expected (transaction) hash values. -/
def hash_mismatch_message (computed expected : Nat) : String :=
  "Computed transaction_hash is inconsistent with the hash in the transaction. Computed hash = "
    ++ toString computed ++ ", Expected hash = " ++ toString expected ++ "."

/-- Models `assert_transaction_hash` in `src/hints/mod.rs`: read the
`transaction_hash` operand, compare it with `tx.hash_value`; on equality
return `ok` with the VM state untouched, on mismatch abort with the message
naming both values (the failing operand read propagates its own error). -/
def assert_transaction_hash (tx : InternalTransaction) (ids : VmIds) :
    Except String VmIds :=
  match ids.transaction_hash with
  | none => Except.error "transaction_hash identifier not found"
  | some transaction_hash =>
      if tx.hash_value = transaction_hash then Except.ok ids
      else Except.error (hash_mismatch_message transaction_hash tx.hash_value)

/-- The operand cells written by `prepare_constructor_execution`; the
calldata segment is the freshly allocated segment with the calldata loaded
at its base. -/
structure ConstructorWrites where
  contract_address_salt : Nat
  class_hash : Nat
  constructor_calldata_size : Nat
  constructor_calldata_segment : List Nat
deriving DecidableEq, Repr

/-- Models `prepare_constructor_execution` in `src/hints/mod.rs`: `expect`
on the salt and the contract hash (fatal when absent), size from a `match`
on the optional calldata (`None` gives 0), segment from
`unwrap_or_default` (`None` gives the empty vector). -/
def prepare_constructor_execution (tx : InternalTransaction) :
    Option ConstructorWrites :=
  match tx.contract_address_salt with
  | none => none
  | some salt =>
      match tx.contract_hash with
      | none => none
      | some hash =>
          let size := match tx.constructor_calldata with
            | none => 0
            | some calldata => calldata.length
          some { contract_address_salt := salt
                 class_hash := hash
                 constructor_calldata_size := size
                 constructor_calldata_segment := tx.constructor_calldata.getD [] }

/-! Concrete states used by the witness statements. -/

/-- An execution-helper state with every optional field unset and every
iterator empty. -/
def empty_eh : ExecutionHelper :=
  { prev_block_context := none
    tx_execution_info_iter := []
    tx_execution_info := none
    tx_info_ptr := none
    call_execution_info_ptr := none
    call_iter := []
    call_info := none
    result_iter := []
    deployed_contracts_iter := []
    execute_code_read_iter := [] }

/-- A leaf call: no inner calls, no storage reads. -/
def leaf_call : CallInfo := .mk ⟨.External, 0⟩ ⟨false, [], 0⟩ [] []

/-- A transaction execution info with no call trees. -/
def empty_tx_info : TransactionExecutionInfo := ⟨none, none, none⟩

/-- Claim C3: after the constructor, `prev_block_context` is present iff
`block_number ≥ STORED_BLOCK_HASH_BUFFER`; in particular it is `none` at
`STORED_BLOCK_HASH_BUFFER - 1` and present at `STORED_BLOCK_HASH_BUFFER`. -/
theorem prev_block_context_iff (txs : List TransactionExecutionInfo)
    (ctx : BlockContext) :
    ((ExecutionHelperManager.new txs ctx).prev_block_context.isSome ↔
      STORED_BLOCK_HASH_BUFFER ≤ ctx.block_number)
    ∧ (ctx.block_number = STORED_BLOCK_HASH_BUFFER - 1 →
        (ExecutionHelperManager.new txs ctx).prev_block_context = none)
    ∧ (ctx.block_number = STORED_BLOCK_HASH_BUFFER →
        (ExecutionHelperManager.new txs ctx).prev_block_context.isSome) := by
  unfold ExecutionHelperManager.new checked_sub
  refine ⟨?_, ?_, ?_⟩
  · by_cases h : STORED_BLOCK_HASH_BUFFER ≤ ctx.block_number <;> simp [h]
  · intro h
    rw [h]
    simp [STORED_BLOCK_HASH_BUFFER]
  · intro h
    rw [h]
    simp

/-- Witness for C3 at the boundary block numbers 9 and 10. -/
theorem prev_block_context_iff_witness :
    (ExecutionHelperManager.new [] ⟨9, 0, 0, 0, 0⟩).prev_block_context = none
    ∧ (ExecutionHelperManager.new [] ⟨10, 0, 0, 0, 0⟩).prev_block_context.isSome :=
  ⟨(prev_block_context_iff [] ⟨9, 0, 0, 0, 0⟩).2.1 rfl,
   (prev_block_context_iff [] ⟨10, 0, 0, 0, 0⟩).2.2 rfl⟩

/-- Claim C4: `exit_call` succeeds exactly when a call is open and the three
per-call iterators are exhausted; on success it clears
`call_execution_info_ptr` and `call_info`; a non-empty `result_iter` makes
it fail. -/
theorem exit_call_spec (eh : ExecutionHelper) :
    (eh.exit_call.isSome ↔ (eh.call_info.isSome ∧ iterators_exhausted eh))
    ∧ (∀ eh', eh.exit_call = some eh' →
        eh'.call_execution_info_ptr = none ∧ eh'.call_info = none)
    ∧ (eh.result_iter ≠ [] → eh.exit_call = none) := by
  unfold ExecutionHelper.exit_call
  by_cases hex : iterators_exhausted eh
  · have hex' : iterators_exhausted { eh with call_execution_info_ptr := none } := hex
    refine ⟨?_, ?_, ?_⟩
    · cases hc : eh.call_info with
      | none => simp [hex', hc]
      | some ci =>
          simp [hex', hc]
          exact Iff.rfl
    · intro eh' h
      simp only [hex', not_true, if_neg, if_false] at h
      cases hc : eh.call_info with
      | none => rw [hc] at h; simp at h
      | some ci =>
          rw [hc] at h
          simp at h
          rw [← h]
          exact ⟨rfl, rfl⟩
    · intro hr
      exact absurd hex.2.1 hr
  · have hex' : ¬ iterators_exhausted { eh with call_execution_info_ptr := none } := hex
    refine ⟨?_, ?_, ?_⟩
    · simp [hex', hex]
    · intro eh' h
      simp [hex'] at h
    · intro _
      simp [hex']

/-- A state with an open call and exhausted per-call iterators. -/
def eh_open_call : ExecutionHelper := { empty_eh with call_info := some leaf_call }

/-- A state with an open call but a pending `result_iter` element. -/
def eh_pending_result : ExecutionHelper :=
  { empty_eh with
    call_info := some leaf_call
    result_iter := [⟨false, [], 0⟩] }

/-- Witness for C4: a state with an open call and exhausted iterators, and a
state with a pending `result_iter` element. -/
theorem exit_call_spec_witness :
    (eh_open_call.exit_call.isSome ↔
      (eh_open_call.call_info.isSome ∧ iterators_exhausted eh_open_call))
    ∧ eh_pending_result.exit_call = none :=
  ⟨(exit_call_spec eh_open_call).1,
   (exit_call_spec eh_pending_result).2.2 (by simp [eh_pending_result])⟩

/-- Claim C5: `end_tx` fails iff the call queue is not drained or no
transaction is open; on success it clears `tx_info_ptr` and
`tx_execution_info`. -/
theorem end_tx_spec (eh : ExecutionHelper) :
    (eh.end_tx = none ↔ (eh.call_iter ≠ [] ∨ eh.tx_execution_info = none))
    ∧ (∀ eh', eh.end_tx = some eh' →
        eh'.tx_info_ptr = none ∧ eh'.tx_execution_info = none) := by
  unfold ExecutionHelper.end_tx
  cases hc : eh.call_iter with
  | cons x xs => simp
  | nil =>
      cases ht : eh.tx_execution_info with
      | none => simp
      | some t =>
          refine ⟨by simp, ?_⟩
          intro eh' h
          simp at h
          rw [← h]
          exact ⟨rfl, rfl⟩

/-- A state with an open transaction, a set transaction pointer and a
drained call queue. -/
def eh_open_tx : ExecutionHelper :=
  { empty_eh with
    tx_info_ptr := some ⟨0, 0⟩
    tx_execution_info := some empty_tx_info }

/-- Witness for C5: on the open-transaction state with a drained call queue,
`end_tx` succeeds and the result has both fields cleared. -/
theorem end_tx_spec_witness :
    empty_eh.tx_info_ptr = none ∧ empty_eh.tx_execution_info = none :=
  (end_tx_spec eh_open_tx).2 empty_eh (by rfl)

/-- Claim C10: `prepare_constructor_execution` tolerates an absent
`constructor_calldata` (size 0, empty segment); it is fatal exactly when
`contract_address_salt` or `contract_hash` is absent. -/
theorem prepare_constructor_execution_spec :
    (∀ (tx : InternalTransaction) (s h : Nat),
        tx.contract_address_salt = some s → tx.contract_hash = some h →
        tx.constructor_calldata = none →
        prepare_constructor_execution tx =
          some { contract_address_salt := s
                 class_hash := h
                 constructor_calldata_size := 0
                 constructor_calldata_segment := [] })
    ∧ (∀ tx : InternalTransaction,
        prepare_constructor_execution tx = none ↔
          (tx.contract_address_salt = none ∨ tx.contract_hash = none)) := by
  constructor
  · intro tx s h hs hh hc
    unfold prepare_constructor_execution
    rw [hs, hh, hc]
    rfl
  · intro tx
    unfold prepare_constructor_execution
    cases hs : tx.contract_address_salt with
    | none => simp
    | some s =>
        cases hh : tx.contract_hash with
        | none => simp
        | some h => simp

/-- A deploy transaction with salt and contract hash present but no
constructor calldata. -/
def deploy_tx_no_calldata : InternalTransaction :=
  { hash_value := 0
    type := "DEPLOY"
    contract_address_salt := some 7
    contract_hash := some 9
    constructor_calldata := none
    version := some 1 }

/-- Witness for C10: the no-calldata deploy transaction succeeds with size 0
and an empty calldata segment. -/
theorem prepare_constructor_execution_spec_witness :
    prepare_constructor_execution deploy_tx_no_calldata =
      some { contract_address_salt := 7
             class_hash := 9
             constructor_calldata_size := 0
             constructor_calldata_segment := [] } :=
  prepare_constructor_execution_spec.1 deploy_tx_no_calldata 7 9 rfl rfl rfl

/-- Claim C7: `assert_transaction_hash` compares the `transaction_hash`
operand with `tx.hash_value`: on equality it returns `ok` with the VM state
untouched; on mismatch it fails with the message naming the computed and the
expected hash. -/
theorem assert_transaction_hash_spec (tx : InternalTransaction) (ids : VmIds)
    (h : Nat) (hread : ids.transaction_hash = some h) :
    (tx.hash_value = h → assert_transaction_hash tx ids = Except.ok ids)
    ∧ (tx.hash_value ≠ h →
        assert_transaction_hash tx ids =
          Except.error (hash_mismatch_message h tx.hash_value)) := by
  unfold assert_transaction_hash
  rw [hread]
  constructor
  · intro he
    simp [he]
  · intro hne
    simp [hne]

/-- Witness for C7: the matching case returns `ok` unchanged; the spec's
mismatch scenario (operand 0xdead, transaction hash 0xbeef) fails with the
message naming both values. -/
theorem assert_transaction_hash_spec_witness :
    (assert_transaction_hash { deploy_tx_no_calldata with hash_value := 57005 }
        ⟨some 57005⟩ = Except.ok ⟨some 57005⟩)
    ∧ (assert_transaction_hash { deploy_tx_no_calldata with hash_value := 48879 }
        ⟨some 57005⟩ = Except.error (hash_mismatch_message 57005 48879)) :=
  ⟨(assert_transaction_hash_spec { deploy_tx_no_calldata with hash_value := 57005 }
      ⟨some 57005⟩ 57005 rfl).1 rfl,
   (assert_transaction_hash_spec { deploy_tx_no_calldata with hash_value := 48879 }
      ⟨some 57005⟩ 57005 rfl).2 (by decide)⟩

/-- `filterMap` of an if-then-some-else-none function is mapping over the
filtered list. -/
theorem filterMap_ite_eq_map_filter {α β : Type} (p : α → Prop) [DecidablePred p]
    (f : α → β) (l : List α) :
    l.filterMap (fun a => if p a then some (f a) else none)
      = (l.filter (fun a => decide (p a))).map f := by
  induction l with
  | nil => rfl
  | cons x xs ih =>
      by_cases hx : p x <;> simp [hx, ih]

/-- Claim C2: after `enter_call` pops `ci`, `deployed_contracts_iter` holds
the caller address (as a field element) of exactly the constructor inner
calls in order, `result_iter` has one `CallResult` triple per inner call in
order, and `execute_code_read_iter` holds the popped call's storage read
values as field elements in order. -/
theorem enter_call_spec (eh : ExecutionHelper) (ptr : Option Relocatable)
    (eh' : ExecutionHelper) (ci : CallInfo) (rest : List CallInfo)
    (hq : eh.call_iter = ci :: rest)
    (h : eh.enter_call ptr = some eh') :
    eh'.deployed_contracts_iter =
      ((ci.inner_calls.filter
          (fun c => decide (c.call.entry_point_type = .Constructor))).map
        (fun c => felt_of_stark_bytes c.call.caller_address))
    ∧ eh'.result_iter.length = ci.inner_calls.length
    ∧ eh'.result_iter = ci.inner_calls.map (fun c =>
        { failed := c.execution.failed
          retdata := c.execution.retdata
          gas_consumed := c.execution.gas_consumed })
    ∧ eh'.execute_code_read_iter = ci.storage_read_values.map felt_of_stark_bytes := by
  unfold ExecutionHelper.enter_call at h
  rw [hq] at h
  split_ifs at h
  simp at h
  rw [← h]
  refine ⟨?_, ?_, rfl, rfl⟩
  · exact filterMap_ite_eq_map_filter _ _ _
  · simp

/-- An inner constructor call with caller address 0x111. -/
def ctor_inner_call : CallInfo := .mk ⟨.Constructor, 273⟩ ⟨false, [7], 5⟩ [] []

/-- An inner external call. -/
def ext_inner_call : CallInfo := .mk ⟨.External, 1⟩ ⟨true, [], 3⟩ [] []

/-- A call with one constructor and one external inner call and one storage
read. -/
def parent_call : CallInfo :=
  .mk ⟨.External, 0⟩ ⟨false, [], 0⟩ [ctor_inner_call, ext_inner_call] [42]

/-- The state obtained by `enter_call` on a fresh helper whose call queue
holds exactly `parent_call`. -/
def eh_after_parent : ExecutionHelper :=
  { empty_eh with
    call_iter := []
    deployed_contracts_iter := [felt_of_stark_bytes 273]
    result_iter := [⟨false, [7], 5⟩, ⟨true, [], 3⟩]
    execute_code_read_iter := [felt_of_stark_bytes 42]
    call_info := some parent_call }

/-- Witness for C2 on `parent_call`: the derived iterators hold the
constructor caller, both result triples and the storage read. -/
theorem enter_call_spec_witness :
    eh_after_parent.deployed_contracts_iter =
      ((parent_call.inner_calls.filter
          (fun c => decide (c.call.entry_point_type = .Constructor))).map
        (fun c => felt_of_stark_bytes c.call.caller_address))
    ∧ eh_after_parent.result_iter.length = parent_call.inner_calls.length
    ∧ eh_after_parent.result_iter = parent_call.inner_calls.map (fun c =>
        { failed := c.execution.failed
          retdata := c.execution.retdata
          gas_consumed := c.execution.gas_consumed })
    ∧ eh_after_parent.execute_code_read_iter =
        parent_call.storage_read_values.map felt_of_stark_bytes :=
  enter_call_spec { empty_eh with call_iter := [parent_call] } none
    eh_after_parent parent_call [] rfl (by rfl)

/-- Claim C6: `skip_call` is `enter_call(None)` followed by `exit_call`, and
from a well-formed state (no open call, no call pointer, exhausted per-call
iterators, non-empty queue) it succeeds iff the next `CallInfo` has no inner
calls and no storage read values. -/
theorem skip_call_spec (eh : ExecutionHelper) (ci : CallInfo) (rest : List CallInfo)
    (hptr : eh.call_execution_info_ptr = none)
    (hopen : eh.call_info = none)
    (hex : iterators_exhausted eh)
    (hq : eh.call_iter = ci :: rest) :
    eh.skip_call = (eh.enter_call none).bind ExecutionHelper.exit_call
    ∧ (eh.skip_call.isSome ↔ (ci.inner_calls = [] ∧ ci.storage_read_values = [])) := by
  refine ⟨rfl, ?_⟩
  unfold ExecutionHelper.skip_call ExecutionHelper.enter_call
  rw [hq]
  simp only [hptr, hopen, Option.isSome_none, Bool.false_eq_true, if_false, hex,
    not_true_eq_false, Option.isSome_some, Option.some_bind]
  unfold ExecutionHelper.exit_call
  by_cases hI : ci.inner_calls = []
  · by_cases hS : ci.storage_read_values = []
    · simp [iterators_exhausted, hI, hS]
    · simp [iterators_exhausted, hI, hS]
  · simp [iterators_exhausted, hI]

/-- Witness for C6 on a fresh helper whose queue holds one leaf call:
`skip_call` succeeds. -/
theorem skip_call_spec_witness :
    ({ empty_eh with call_iter := [leaf_call] } : ExecutionHelper).skip_call.isSome :=
  ((skip_call_spec { empty_eh with call_iter := [leaf_call] } leaf_call []
      rfl rfl ⟨rfl, rfl, rfl⟩ rfl).2).mpr ⟨rfl, rfl⟩

/-- The six public operations of the execution-helper manager. -/
inductive EhOp where
  | startTx (ptr : Option Relocatable)
  | endTx
  | skipTx
  | enterCall (ptr : Option Relocatable)
  | exitCall
  | skipCall

/-- Dispatch of an operation on the helper state. -/
def EhOp.apply : EhOp → ExecutionHelper → Option ExecutionHelper
  | .startTx ptr, eh => eh.start_tx ptr
  | .endTx, eh => eh.end_tx
  | .skipTx, eh => eh.skip_tx
  | .enterCall ptr, eh => eh.enter_call ptr
  | .exitCall, eh => eh.exit_call
  | .skipCall, eh => eh.skip_call

/-- `start_tx` leaves `prev_block_context` untouched. -/
theorem start_tx_preserves_prev (eh eh' : ExecutionHelper) (ptr : Option Relocatable)
    (h : eh.start_tx ptr = some eh') : eh'.prev_block_context = eh.prev_block_context := by
  unfold ExecutionHelper.start_tx at h
  split_ifs at h
  cases hq : eh.tx_execution_info_iter with
  | nil => rw [hq] at h; simp at h
  | cons t rest =>
      rw [hq] at h
      simp at h
      rw [← h]

/-- `end_tx` leaves `prev_block_context` untouched. -/
theorem end_tx_preserves_prev (eh eh' : ExecutionHelper)
    (h : eh.end_tx = some eh') : eh'.prev_block_context = eh.prev_block_context := by
  unfold ExecutionHelper.end_tx at h
  cases hq : eh.call_iter with
  | cons x xs => rw [hq] at h; simp at h
  | nil =>
      rw [hq] at h
      split_ifs at h
      simp at h
      rw [← h]

/-- `enter_call` leaves `prev_block_context` untouched. -/
theorem enter_call_preserves_prev (eh eh' : ExecutionHelper) (ptr : Option Relocatable)
    (h : eh.enter_call ptr = some eh') : eh'.prev_block_context = eh.prev_block_context := by
  unfold ExecutionHelper.enter_call at h
  split_ifs at h
  cases hq : eh.call_iter with
  | nil => rw [hq] at h; simp at h
  | cons ci rest =>
      rw [hq] at h
      simp at h
      rw [← h]

/-- `exit_call` leaves `prev_block_context` untouched. -/
theorem exit_call_preserves_prev (eh eh' : ExecutionHelper)
    (h : eh.exit_call = some eh') : eh'.prev_block_context = eh.prev_block_context := by
  simp only [ExecutionHelper.exit_call] at h
  split_ifs at h
  simp at h
  rw [← h]

/-- Claim C9: `prev_block_context` is either absent or exactly the block
context passed to the constructor, and no operation changes it afterwards. -/
theorem prev_block_context_stable :
    (∀ (txs : List TransactionExecutionInfo) (ctx : BlockContext),
        (ExecutionHelperManager.new txs ctx).prev_block_context = none
        ∨ (ExecutionHelperManager.new txs ctx).prev_block_context = some ctx)
    ∧ (∀ (op : EhOp) (eh eh' : ExecutionHelper), op.apply eh = some eh' →
        eh'.prev_block_context = eh.prev_block_context) := by
  constructor
  · intro txs ctx
    unfold ExecutionHelperManager.new checked_sub
    by_cases h : STORED_BLOCK_HASH_BUFFER ≤ ctx.block_number <;> simp [h]
  · intro op eh eh' h
    cases op with
    | startTx ptr => exact start_tx_preserves_prev eh eh' ptr h
    | endTx => exact end_tx_preserves_prev eh eh' h
    | skipTx =>
        rcases Option.bind_eq_some.mp h with ⟨mid, h1, h2⟩
        rw [end_tx_preserves_prev mid eh' h2, start_tx_preserves_prev eh mid none h1]
    | enterCall ptr => exact enter_call_preserves_prev eh eh' ptr h
    | exitCall => exact exit_call_preserves_prev eh eh' h
    | skipCall =>
        rcases Option.bind_eq_some.mp h with ⟨mid, h1, h2⟩
        rw [exit_call_preserves_prev mid eh' h2, enter_call_preserves_prev eh mid none h1]

/-- Witness for C9: `end_tx` on the open-transaction state preserves
`prev_block_context`. -/
theorem prev_block_context_stable_witness :
    empty_eh.prev_block_context = eh_open_tx.prev_block_context :=
  prev_block_context_stable.2 EhOp.endTx eh_open_tx empty_eh (by rfl)

/-- The spec's flattening of one call tree, following its words: emit the
node, then recurse into its `inner_calls` in order (depth-first, parent
before children). -/
def preorder_spec : CallInfo → List CallInfo
  | .mk call exec inner srv =>
      CallInfo.mk call exec inner srv ::
        (inner.attach.map (fun x => preorder_spec x.1)).flatten
termination_by c => sizeOf c
decreasing_by
  simp_wf
  have hlt := List.sizeOf_lt_of_mem x.2
  omega

/-- The spec's call queue: for each non-optional sub-trace of the
transaction (validate, execute, fee transfer, in that fixed order), the
pre-order flattening of its tree. -/
def call_queue_spec (t : TransactionExecutionInfo) : List CallInfo :=
  (t.non_optional_call_infos.map preorder_spec).flatten

/-- The loop accumulator of `gen_call_topology` flattens to the concatenated
per-tree topologies. -/
theorem gen_call_topology_list_eq_flatten (l : List CallInfo) :
    gen_call_topology_list l = (l.map CallInfo.gen_call_topology).flatten := by
  induction l with
  | nil => rfl
  | cons c cs ih => simp [gen_call_topology_list, ih]

/-- The source's `gen_call_topology` computes the spec's pre-order
flattening. -/
theorem gen_call_topology_eq_preorder :
    ∀ c : CallInfo, c.gen_call_topology = preorder_spec c
  | .mk call exec inner srv => by
      have ih : ∀ c ∈ inner, c.gen_call_topology = preorder_spec c := by
        intro c hc
        exact gen_call_topology_eq_preorder c
      rw [CallInfo.gen_call_topology, preorder_spec, gen_call_topology_list_eq_flatten]
      congr 1
      congr 1
      rw [List.attach_map_coe]
      exact List.map_congr_left ih
termination_by c => sizeOf c
decreasing_by
  have hlt := List.sizeOf_lt_of_mem hc
  simp
  omega

/-- The fold of `gen_call_iterator` is an accumulator-passing join. -/
theorem gen_call_iterator_foldl (l : List CallInfo) (acc : List CallInfo) :
    l.foldl (fun acc ci => acc ++ ci.gen_call_topology) acc
      = acc ++ (l.map CallInfo.gen_call_topology).flatten := by
  induction l generalizing acc with
  | nil => simp
  | cons c cs ih => simp [ih]

/-- The source's `gen_call_iterator` computes the spec's call queue. -/
theorem gen_call_iterator_eq_call_queue_spec (t : TransactionExecutionInfo) :
    t.gen_call_iterator = call_queue_spec t := by
  unfold TransactionExecutionInfo.gen_call_iterator call_queue_spec
  rw [gen_call_iterator_foldl]
  simp only [List.nil_append]
  congr 1
  exact List.map_congr_left (fun c _ => gen_call_topology_eq_preorder c)

/-- Claim C1: when `start_tx` succeeds, the call queue it builds is exactly
the pre-order linearization of the popped transaction's non-optional call
trees, validate then execute then fee transfer, each flattened depth-first
with the parent before its children. -/
theorem start_tx_builds_call_queue (eh : ExecutionHelper) (ptr : Option Relocatable)
    (eh' : ExecutionHelper) (h : eh.start_tx ptr = some eh') :
    ∃ t rest, eh.tx_execution_info_iter = t :: rest
      ∧ eh'.call_iter = call_queue_spec t := by
  unfold ExecutionHelper.start_tx at h
  split_ifs at h
  cases hq : eh.tx_execution_info_iter with
  | nil => rw [hq] at h; simp at h
  | cons t rest =>
      rw [hq] at h
      simp at h
      refine ⟨t, rest, rfl, ?_⟩
      rw [← h]
      exact gen_call_iterator_eq_call_queue_spec t

/-- A transaction with a validate tree with inner calls and a fee-transfer
leaf. -/
def tree_tx_info : TransactionExecutionInfo := ⟨some parent_call, none, some leaf_call⟩

/-- A fresh helper whose transaction iterator holds `tree_tx_info`. -/
def eh_queue_demo : ExecutionHelper :=
  { empty_eh with tx_execution_info_iter := [tree_tx_info] }

/-- The state `start_tx(None)` produces from `eh_queue_demo`. -/
def eh_queue_demo_after : ExecutionHelper :=
  { empty_eh with
    tx_execution_info_iter := []
    tx_execution_info := some tree_tx_info
    call_iter := tree_tx_info.gen_call_iterator }

/-- Witness for C1 on the two-tree transaction. -/
theorem start_tx_builds_call_queue_witness :
    ∃ t rest, eh_queue_demo.tx_execution_info_iter = t :: rest
      ∧ eh_queue_demo_after.call_iter = call_queue_spec t :=
  start_tx_builds_call_queue eh_queue_demo none eh_queue_demo_after (by rfl)

/-- Claim C8: for every transaction type name, `load_next_tx` writes the
big-endian ASCII encoding of the name to `ids.tx_type`, and the minimal
big-endian decoding of that field element is the original name. -/
theorem load_next_tx_round_trip (s : LoadNextTxScope) (t : InternalTransaction)
    (rest : List InternalTransaction)
    (hq : s.transactions = t :: rest)
    (hname : t.type ∈ tx_type_names) :
    load_next_tx s =
      some { transactions := rest
             tx := some t
             ids_tx_type := some (tx_type_felt t.type) }
    ∧ decode_tx_type (tx_type_felt t.type) = t.type := by
  constructor
  · unfold load_next_tx
    rw [hq]
  · simp only [tx_type_names, List.mem_cons, List.not_mem_nil, or_false] at hname
    rcases hname with h | h | h | h | h <;> rw [h] <;> decide

/-- Witness for C8: loading a `DEPLOY` transaction writes its encoded type
name and the encoding decodes back to `DEPLOY`. -/
theorem load_next_tx_round_trip_witness :
    load_next_tx ⟨[deploy_tx_no_calldata], none, none⟩ =
      some { transactions := []
             tx := some deploy_tx_no_calldata
             ids_tx_type := some (tx_type_felt "DEPLOY") }
    ∧ decode_tx_type (tx_type_felt "DEPLOY") = "DEPLOY" :=
  load_next_tx_round_trip ⟨[deploy_tx_no_calldata], none, none⟩
    deploy_tx_no_calldata [] rfl (by decide)
